import Mathlib

/-!
Shallow embedding of `src/main.py` of `escapr-ferret-detect`.

The program starts a remote inference pipeline over an RTSP feed, polls it for
per-frame classification outcomes, accumulates positive detections in a
time-windowed confidence counter, and pages responders through PagerDuty when
the counter reaches a threshold.

Modelling conventions:
* Python floats become `ℚ` (the loop only adds `1`, `1/max_fps` and compares
  against integer thresholds, so rational arithmetic is exact for the
  behaviours under study).
* Raised exceptions become `Except PyError` results (or an `Option PyError`
  paired with the unchanged object state, for methods that mutate `self`).
* External network effects (the inference client, `requests.post`) are inputs:
  the poll results and the HTTP responses are parameters of the loop.
* `print` calls are not modelled, except for the two lines of `main` whose
  text the exit contract surfaces.
-/

/-- Python exception values raised or caught in `src/main.py`:
`ValueError` (constructor validation), `RuntimeError` (double start),
`requests.HTTPError` (from `raise_for_status`), transport-level request
failures, and `KeyboardInterrupt`. -/
inductive PyError where
  | valueError (msg : String)
  | runtimeError (msg : String)
  | httpError (status : ℕ)
  | transportError (msg : String)
  | keyboardInterrupt
  deriving DecidableEq

/-- One element of a poll's `outputs` array (src/main.py lines 87-89):
the boolean match flag and the similarity score read from it.
An absent / falsy `is_match` behaves exactly like `false` in line 90,
so `Bool` is adequate. -/
structure ClassificationOutcome where
  is_match : Bool
  similarity : ℚ
  deriving DecidableEq

/-- The mutable window state of `FerretDetector.consume`
(src/main.py lines 78-79): `confidence` and `confidence_elapsed`. -/
structure WindowState where
  confidence : ℚ
  confidence_elapsed : ℚ
  deriving DecidableEq

/-- Initial window state, src/main.py lines 78-79. -/
def initialWindow : WindowState := { confidence := 0, confidence_elapsed := 0 }

/-- Outcome of one processed tick: whether the paging branch ran
(line 96) and the window state at the end of the iteration. -/
structure TickResult where
  fired : Bool
  state : WindowState
  deriving DecidableEq

/-- The confidence value after the match branch of a tick
(src/main.py lines 90-94): increment on a positive match, else unchanged. -/
def tickHits (s : WindowState) (o : ClassificationOutcome) : ℚ :=
  if o.is_match then s.confidence + 1 else s.confidence

/-- The tail of a loop iteration (src/main.py lines 108-111): given the
elapsed counter `e` and the current confidence `c`, clear the confidence when
`e` has reached 10 seconds, then advance the elapsed counter by `1/max_fps`.
Note the source never sets `confidence_elapsed` back to zero. -/
def elapsedStep (max_fps : ℕ) (e c : ℚ) : WindowState :=
  { confidence := if 10 ≤ e then 0 else c,
    confidence_elapsed := e + 1 / (max_fps : ℚ) }

/-- One processed iteration of the consume loop (src/main.py lines 88-111):
update the confidence from the match flag, fire (page) and reset the
confidence when it reaches 15, then run the elapsed-window step. -/
def tick (max_fps : ℕ) (s : WindowState) (o : ClassificationOutcome) : TickResult :=
  if 15 ≤ tickHits s o then
    { fired := true, state := elapsedStep max_fps s.confidence_elapsed 0 }
  else
    { fired := false, state := elapsedStep max_fps s.confidence_elapsed (tickHits s o) }

/-- Per-tick trace of the consume loop over a list of processed outcomes:
the `TickResult` of every iteration in order. -/
def windowTrace (max_fps : ℕ) : WindowState → List ClassificationOutcome → List TickResult
  | _, [] => []
  | s, o :: os =>
    tick max_fps s o :: windowTrace max_fps (tick max_fps s o).state os

/-- Final window state of the consume loop after a list of processed
outcomes. -/
def runWindow (max_fps : ℕ) : WindowState → List ClassificationOutcome → WindowState
  | s, [] => s
  | s, o :: os => runWindow max_fps (tick max_fps s o).state os

/-- `true` when no iteration of a trace ran the paging branch. -/
def noFire (ts : List TickResult) : Bool := ts.all (fun r => !r.fired)

/-- An HTTP response as seen by `requests`: status code and body. -/
structure HttpResponse where
  status_code : ℕ
  body : String
  deriving DecidableEq

/-- `requests.Response.raise_for_status` (called at src/main.py line 137):
raises `HTTPError` exactly for 4xx/5xx status codes. -/
def raise_for_status (r : HttpResponse) : Except PyError Unit :=
  if 400 ≤ r.status_code ∧ r.status_code < 600 then
    Except.error (PyError.httpError r.status_code)
  else Except.ok ()

/-- `FerretDetector.create_pagerduty_incident` (src/main.py lines 115-139).
The outcome of the `requests.post` call is the parameter: a transport failure
is an `Except.error`, otherwise an `HttpResponse`. On a response the code
calls `raise_for_status` and returns the parsed body. -/
def create_pagerduty_incident (postResult : Except PyError HttpResponse) :
    Except PyError String :=
  match postResult with
  | Except.error e => Except.error e
  | Except.ok resp =>
    match raise_for_status resp with
    | Except.error e => Except.error e
    | Except.ok _ => Except.ok resp.body

/-- One poll result's `outputs` array (src/main.py line 82): a list whose
elements may be absent/falsy (`none`). -/
abbrev Poll := List (Option ClassificationOutcome)

/-- The consume loop of `FerretDetector.consume` (src/main.py lines 81-113)
over a finite list of poll results. `env n` is the HTTP outcome of the
`n`-th `requests.post` issued by `create_pagerduty_incident`; `n` counts
dispatches performed so far. A poll whose `outputs` is empty or whose first
element is falsy is skipped (lines 84-85). When the paging branch fires and
the dispatch raises, the exception propagates out of the loop
(there is no handler in `consume`), which the `Except.error` result models;
the remaining polls are not processed. -/
def consumeExc (max_fps : ℕ) (env : ℕ → Except PyError HttpResponse) :
    WindowState → ℕ → List Poll → Except PyError (WindowState × ℕ)
  | s, n, [] => Except.ok (s, n)
  | s, n, [] :: ps => consumeExc max_fps env s n ps
  | s, n, (none :: _) :: ps => consumeExc max_fps env s n ps
  | s, n, (some o :: _) :: ps =>
    if (tick max_fps s o).fired then
      match create_pagerduty_incident (env n) with
      | Except.error e => Except.error e
      | Except.ok _ => consumeExc max_fps env (tick max_fps s o).state (n + 1) ps
    else consumeExc max_fps env (tick max_fps s o).state n ps

/-- The configuration state stored by `FerretDetector.__init__`
(src/main.py lines 27-34), including the pipeline handle (empty when idle). -/
structure FerretDetector where
  rtsp_url : String
  api_url : String
  max_fps : ℕ
  prompt : String
  threshold : ℚ
  workspace_name : String
  workflow_id : String
  pipeline_id : String
  deriving DecidableEq

/-- `FerretDetector.__init__` (src/main.py lines 11-36): reject an empty
RTSP URL, then a threshold outside `[0, 1]`, otherwise store the
configuration with an empty pipeline handle. -/
def FerretDetector.init (rtsp_url api_url : String) (max_fps : ℕ)
    (prompt : String) (threshold : ℚ) (workspace_name workflow_id : String) :
    Except PyError FerretDetector :=
  if rtsp_url = "" then
    Except.error (PyError.valueError "RTSP URL cannot be empty")
  else if ¬(0 ≤ threshold ∧ threshold ≤ 1) then
    Except.error (PyError.valueError "Threshold must be between 0.0 and 1.0")
  else
    Except.ok
      { rtsp_url := rtsp_url, api_url := api_url, max_fps := max_fps,
        prompt := prompt, threshold := threshold,
        workspace_name := workspace_name, workflow_id := workflow_id,
        pipeline_id := "" }

/-- `FerretDetector.is_running` (src/main.py lines 43-46). -/
def FerretDetector.is_running (d : FerretDetector) : Bool := d.pipeline_id != ""

/-- `FerretDetector.start` (src/main.py lines 48-66): raise `RuntimeError`
when already running (before any mutation, so the object is unchanged),
otherwise store the pipeline id returned by the remote start call
(`remote_pipeline_id` is that external result). -/
def FerretDetector.start (d : FerretDetector) (remote_pipeline_id : String) :
    Option PyError × FerretDetector :=
  if d.is_running then
    (some (PyError.runtimeError "Pipeline is already running"), d)
  else
    (none, { d with pipeline_id := remote_pipeline_id })

/-- Message carried by an exception, as `str(e)` would surface it in
`main`'s `print` (src/main.py line 177). -/
def pyErrorMsg : PyError → String
  | PyError.valueError m => m
  | PyError.runtimeError m => m
  | PyError.httpError status => "HTTP error " ++ toString status
  | PyError.transportError m => m
  | PyError.keyboardInterrupt => ""

/-- `main` (src/main.py lines 153-180), abstracted over the outcome of the
`with`-block body: on `KeyboardInterrupt` print the shutdown message and
return 0; on any other exception print the error message and return 1;
on normal completion return 0. The result pairs the exit code with the
line printed by the handler. -/
def mainResult : Except PyError Unit → ℕ × String
  | Except.error PyError.keyboardInterrupt => (0, "\nShutdown complete.")
  | Except.error e => (1, "Error: " ++ pyErrorMsg e)
  | Except.ok _ => (0, "")

/-- A positive classification outcome used by concrete test runs. -/
def posO : ClassificationOutcome := { is_match := true, similarity := 1 / 2 }

/-! ## Basic tick lemmas -/

lemma tick_elapsed (f : ℕ) (s : WindowState) (o : ClassificationOutcome) :
    (tick f s o).state.confidence_elapsed = s.confidence_elapsed + 1 / (f : ℚ) := by
  unfold tick
  split <;> simp [elapsedStep]

lemma tick_conf_of_saturated (f : ℕ) (s : WindowState) (o : ClassificationOutcome)
    (h : 10 ≤ s.confidence_elapsed) : (tick f s o).state.confidence = 0 := by
  unfold tick
  split <;> simp [elapsedStep, h]

lemma tickHits_le (s : WindowState) (o : ClassificationOutcome) :
    tickHits s o ≤ s.confidence + 1 := by
  unfold tickHits
  split <;> linarith

lemma tick_fired_eq_false (f : ℕ) (s : WindowState) (o : ClassificationOutcome)
    (h : tickHits s o < 15) : (tick f s o).fired = false := by
  unfold tick
  rw [if_neg (not_le.mpr h)]

lemma noFire_of_saturated (f : ℕ) (os : List ClassificationOutcome) :
    ∀ s : WindowState, s.confidence = 0 → 10 ≤ s.confidence_elapsed →
      noFire (windowTrace f s os) = true := by
  induction os with
  | nil => intro s _ _; rfl
  | cons o os ih =>
    intro s h0 h10
    have hf : (tick f s o).fired = false := by
      apply tick_fired_eq_false
      have := tickHits_le s o
      rw [h0] at this
      linarith
    have hc : (tick f s o).state.confidence = 0 := tick_conf_of_saturated f s o h10
    have he : 10 ≤ (tick f s o).state.confidence_elapsed := by
      rw [tick_elapsed]
      have h1 : (0 : ℚ) ≤ 1 / (f : ℚ) := by positivity
      linarith
    simp only [windowTrace, noFire, List.all_cons, hf, Bool.not_false, Bool.true_and]
    exact ih _ hc he

/-! ## Claim C1 -/

/-- C1: the spec claims that on a tick where `confidence_elapsed` has reached
the 10-second window the loop resets both `confidence` (hitCount) and
`confidence_elapsed` to 0. The code (src/main.py lines 108-111) resets only
`confidence`: at the concrete state `confidence = 3`,
`confidence_elapsed = 10`, on a positive outcome at 4 fps, `confidence`
becomes 0 but `confidence_elapsed` becomes `41/4`, not 0 — the elapsed
counter is never reset, contradicting the code's own comment
"reset confidence every 10 seconds". -/
theorem elapsed_reset_missing :
    (tick 4 ⟨3, 10⟩ ⟨true, 9 / 10⟩).state.confidence = 0 ∧
    (tick 4 ⟨3, 10⟩ ⟨true, 9 / 10⟩).state.confidence_elapsed = 41 / 4 ∧
    (41 / 4 : ℚ) ≠ 0 := by
  refine ⟨?_, ?_, by norm_num⟩ <;> norm_num [tick, tickHits, elapsedStep]

/-! ## Claim C2 -/

/-- C2: on any tick whose state has `confidence_elapsed ≥ 10` (in particular
the first tick at which the window threshold is reached), the end-of-tick
reset clears `confidence`, and since `confidence_elapsed` never decreases,
every strictly later processed tick fires no trigger and dispatches no
alert. -/
theorem no_fire_after_window_saturation (f : ℕ) (s : WindowState)
    (o : ClassificationOutcome) (os : List ClassificationOutcome)
    (h : 10 ≤ s.confidence_elapsed) :
    noFire (windowTrace f (tick f s o).state os) = true := by
  apply noFire_of_saturated f os _ (tick_conf_of_saturated f s o h)
  rw [tick_elapsed]
  have h1 : (0 : ℚ) ≤ 1 / (f : ℚ) := by positivity
  linarith

/-- Witness for C2 at a concrete saturated state, 4 fps, three further
positive outcomes. -/
theorem no_fire_after_window_saturation_witness :
    noFire (windowTrace 4 (tick 4 ⟨0, 10⟩ posO).state [posO, posO, posO]) = true :=
  no_fire_after_window_saturation 4 ⟨0, 10⟩ posO [posO, posO, posO] (by norm_num)

/-! ## Claim C8 -/

/-- C8: a poll whose `outputs` array is empty or whose first element is
absent is skipped by the loop (src/main.py lines 84-85): the continuation is
literally the loop on the remaining polls with the same window state, the
same dispatch count, and the same pending HTTP environment — no state
mutation and no alert on that iteration. -/
theorem empty_result_skips (f : ℕ) (env : ℕ → Except PyError HttpResponse)
    (s : WindowState) (n : ℕ) (rest : List (Option ClassificationOutcome))
    (ps : List Poll) :
    consumeExc f env s n ([] :: ps) = consumeExc f env s n ps ∧
    consumeExc f env s n ((none :: rest) :: ps) = consumeExc f env s n ps :=
  ⟨rfl, rfl⟩

/-! ## Claim C6 -/

/-- C6: calling `start` while the detector is already running raises
`RuntimeError("Pipeline is already running")` and leaves the object
unchanged: the stored pipeline handle is intact and the detector is still
running. -/
theorem start_already_running (d : FerretDetector) (remote_pipeline_id : String)
    (h : d.is_running = true) :
    d.start remote_pipeline_id =
      (some (PyError.runtimeError "Pipeline is already running"), d) ∧
    (d.start remote_pipeline_id).2.pipeline_id = d.pipeline_id ∧
    (d.start remote_pipeline_id).2.is_running = true := by
  have hs : d.start remote_pipeline_id =
      (some (PyError.runtimeError "Pipeline is already running"), d) := by
    unfold FerretDetector.start
    rw [if_pos h]
  exact ⟨hs, by rw [hs], by rw [hs]; exact h⟩

/-- Witness for C6: a running detector with handle `"pipe-123"`. -/
theorem start_already_running_witness :
    ({ rtsp_url := "rtsp://cam", api_url := "http://localhost:9001",
       max_fps := 4, prompt := "ferret", threshold := 16 / 100,
       workspace_name := "local", workflow_id := "clip-frames",
       pipeline_id := "pipe-123" } : FerretDetector).start "pipe-456" =
      (some (PyError.runtimeError "Pipeline is already running"),
       { rtsp_url := "rtsp://cam", api_url := "http://localhost:9001",
         max_fps := 4, prompt := "ferret", threshold := 16 / 100,
         workspace_name := "local", workflow_id := "clip-frames",
         pipeline_id := "pipe-123" }) :=
  (start_already_running
    { rtsp_url := "rtsp://cam", api_url := "http://localhost:9001",
      max_fps := 4, prompt := "ferret", threshold := 16 / 100,
      workspace_name := "local", workflow_id := "clip-frames",
      pipeline_id := "pipe-123" } "pipe-456" (by decide)).1

/-! ## Claim C7 -/

/-- C7: construction raises `ValueError` exactly when the RTSP URL is empty
or the threshold is outside `[0, 1]`, and succeeds exactly otherwise
(src/main.py lines 21-25). In particular `threshold = 3/2` fails, an empty
URL fails, and a non-empty URL with an in-range threshold succeeds. -/
theorem init_invalid_config_iff (rtsp_url api_url : String) (max_fps : ℕ)
    (prompt : String) (threshold : ℚ) (workspace_name workflow_id : String) :
    ((∃ msg, FerretDetector.init rtsp_url api_url max_fps prompt threshold
        workspace_name workflow_id = Except.error (PyError.valueError msg)) ↔
      (rtsp_url = "" ∨ threshold < 0 ∨ 1 < threshold)) ∧
    ((∃ d, FerretDetector.init rtsp_url api_url max_fps prompt threshold
        workspace_name workflow_id = Except.ok d) ↔
      (rtsp_url ≠ "" ∧ 0 ≤ threshold ∧ threshold ≤ 1)) := by
  unfold FerretDetector.init
  split_ifs with h1 h2
  · constructor
    · exact ⟨fun _ => Or.inl h1, fun _ => ⟨_, rfl⟩⟩
    · constructor
      · rintro ⟨d, hd⟩
        exact hd.elim
      · rintro ⟨hu, _⟩
        exact absurd h1 hu
  · obtain ⟨ht0, ht1⟩ := h2
    constructor
    · constructor
      · rintro ⟨msg, hm⟩
        exact hm.elim
      · rintro (h | h | h)
        · exact absurd h h1
        · linarith
        · linarith
    · exact ⟨fun _ => ⟨h1, ht0, ht1⟩, fun _ => ⟨_, rfl⟩⟩
  · have h2' : threshold < 0 ∨ 1 < threshold := by
      rcases not_and_or.mp h2 with h | h
      · exact Or.inl (not_le.mp h)
      · exact Or.inr (not_le.mp h)
    constructor
    · exact ⟨fun _ => Or.inr h2', fun _ => ⟨_, rfl⟩⟩
    · constructor
      · rintro ⟨d, hd⟩
        exact hd.elim
      · rintro ⟨_, ht0, ht1⟩
        rcases h2' with h | h <;> linarith

/-! ## Claim C10 -/

/-- C10: the end-to-end run exits with code 0 on `KeyboardInterrupt`
(printing the shutdown message) and with code 1 on any other exception,
printing `Error: ` followed by the failure message
(src/main.py lines 166-180). -/
theorem main_exit_codes :
    mainResult (Except.error PyError.keyboardInterrupt) =
      (0, "\nShutdown complete.") ∧
    ∀ e : PyError, e ≠ PyError.keyboardInterrupt →
      mainResult (Except.error e) = (1, "Error: " ++ pyErrorMsg e) := by
  refine ⟨rfl, ?_⟩
  intro e he
  cases e with
  | valueError m => rfl
  | runtimeError m => rfl
  | httpError s => rfl
  | transportError m => rfl
  | keyboardInterrupt => exact absurd rfl he

/-- Witness for C10 at the concrete non-interrupt exception
`HTTPError 500`. -/
theorem main_exit_codes_witness :
    mainResult (Except.error (PyError.httpError 500)) =
      (1, "Error: " ++ pyErrorMsg (PyError.httpError 500)) :=
  main_exit_codes.2 (PyError.httpError 500) (by decide)

/-! ## Accumulation lemmas for the confidence window -/

lemma runWindow_accumulate (f : ℕ) (os : List ClassificationOutcome) :
    ∀ s : WindowState,
      s.confidence + (os.countP (fun o => o.is_match) : ℚ) < 15 →
      (∀ i : ℕ, i < os.length → s.confidence_elapsed + (i : ℚ) / (f : ℚ) < 10) →
      noFire (windowTrace f s os) = true ∧
        runWindow f s os =
          { confidence := s.confidence + (os.countP (fun o => o.is_match) : ℚ),
            confidence_elapsed :=
              s.confidence_elapsed + (os.length : ℚ) / (f : ℚ) } := by
  induction os with
  | nil =>
    intro s _ _
    refine ⟨rfl, ?_⟩
    cases s
    simp [runWindow]
  | cons o os ih =>
    intro s hc he
    have h0 : s.confidence_elapsed < 10 := by
      have h := he 0 (by simp)
      simpa using h
    have hcount0 : (0 : ℚ) ≤ (os.countP (fun o => o.is_match) : ℚ) := by positivity
    have he' : ∀ i : ℕ, i < os.length →
        (s.confidence_elapsed + 1 / (f : ℚ)) + (i : ℚ) / (f : ℚ) < 10 := by
      intro i hi
      have h := he (i + 1) (by simpa using Nat.succ_lt_succ hi)
      push_cast at h
      rw [add_div] at h
      linarith
    cases hm : o.is_match with
    | false =>
      have hhits : tickHits s o = s.confidence := by simp [tickHits, hm]
      have hcnt : (o :: os).countP (fun o => o.is_match)
          = os.countP (fun o => o.is_match) := by
        simp [List.countP_cons, hm]
      have hfire : tickHits s o < 15 := by
        rw [hhits]
        rw [hcnt] at hc
        linarith
      have htick : tick f s o =
          { fired := false,
            state := { confidence := tickHits s o,
                       confidence_elapsed :=
                         s.confidence_elapsed + 1 / (f : ℚ) } } := by
        unfold tick elapsedStep
        rw [if_neg (not_le.mpr hfire), if_neg (not_le.mpr h0)]
      obtain ⟨hA, hB⟩ := ih
        { confidence := tickHits s o,
          confidence_elapsed := s.confidence_elapsed + 1 / (f : ℚ) }
        (by rw [hcnt] at hc; show tickHits s o + _ < 15; rw [hhits]; linarith)
        he'
      constructor
      · simp only [windowTrace, noFire, List.all_cons, htick, Bool.not_false,
          Bool.true_and]
        exact hA
      · show runWindow f (tick f s o).state os = _
        rw [htick]
        rw [hB]
        simp only [WindowState.mk.injEq]
        constructor
        · rw [hhits, hcnt]
        · simp only [List.length_cons]
          push_cast
          rw [add_div]
          ring
    | true =>
      have hhits : tickHits s o = s.confidence + 1 := by simp [tickHits, hm]
      have hcnt : (o :: os).countP (fun o => o.is_match)
          = os.countP (fun o => o.is_match) + 1 := by
        simp [List.countP_cons, hm]
      have hfire : tickHits s o < 15 := by
        rw [hhits]
        rw [hcnt] at hc
        push_cast at hc
        linarith
      have htick : tick f s o =
          { fired := false,
            state := { confidence := tickHits s o,
                       confidence_elapsed :=
                         s.confidence_elapsed + 1 / (f : ℚ) } } := by
        unfold tick elapsedStep
        rw [if_neg (not_le.mpr hfire), if_neg (not_le.mpr h0)]
      obtain ⟨hA, hB⟩ := ih
        { confidence := tickHits s o,
          confidence_elapsed := s.confidence_elapsed + 1 / (f : ℚ) }
        (by
          rw [hcnt] at hc
          push_cast at hc
          show tickHits s o + _ < 15
          rw [hhits]
          linarith)
        he'
      constructor
      · simp only [windowTrace, noFire, List.all_cons, htick, Bool.not_false,
          Bool.true_and]
        exact hA
      · show runWindow f (tick f s o).state os = _
        rw [htick]
        rw [hB]
        simp only [WindowState.mk.injEq]
        constructor
        · rw [hhits, hcnt]
          push_cast
          ring
        · simp only [List.length_cons]
          push_cast
          rw [add_div]
          ring

lemma windowTrace_append (f : ℕ) (xs ys : List ClassificationOutcome) :
    ∀ s : WindowState, windowTrace f s (xs ++ ys)
      = windowTrace f s xs ++ windowTrace f (runWindow f s xs) ys := by
  induction xs with
  | nil => intro s; simp [windowTrace, runWindow]
  | cons x xs ih => intro s; simp [windowTrace, runWindow, ih]

lemma runWindow_append (f : ℕ) (xs ys : List ClassificationOutcome) :
    ∀ s : WindowState,
      runWindow f s (xs ++ ys) = runWindow f (runWindow f s xs) ys := by
  induction xs with
  | nil => intro s; simp [runWindow]
  | cons x xs ih => intro s; simp [runWindow, ih]

lemma windowTrace_length (f : ℕ) (os : List ClassificationOutcome) :
    ∀ s : WindowState, (windowTrace f s os).length = os.length := by
  induction os with
  | nil => intro s; rfl
  | cons o os ih => intro s; simp [windowTrace, ih]

lemma noFire_mem {ts : List TickResult} (h : noFire ts = true) :
    ∀ r ∈ ts, r.fired = false := by
  intro r hr
  have h' := List.all_eq_true.mp h r hr
  simpa using h'

/-! ## Claim C5 -/

/-- C5: a run of `N < 15` consecutive positive outcomes from the initial
window state, delivered in fewer than `10 * max_fps` ticks (before any
elapsed-reset), fires no trigger and dispatches no alert. -/
theorem consecutive_below_threshold_no_fire (f : ℕ) (hf : 0 < f)
    (os : List ClassificationOutcome)
    (hall : ∀ o ∈ os, o.is_match = true)
    (hN : os.length < 15)
    (hwin : os.length < 10 * f) :
    noFire (windowTrace f initialWindow os) = true := by
  have hfq : (0 : ℚ) < (f : ℚ) := by exact_mod_cast hf
  refine (runWindow_accumulate f os initialWindow ?_ ?_).1
  · show (0 : ℚ) + _ < 15
    have hcle : os.countP (fun o => o.is_match) ≤ os.length :=
      List.countP_le_length _
    have hcq : (os.countP (fun o => o.is_match) : ℚ) ≤ (os.length : ℚ) := by
      exact_mod_cast hcle
    have hlen : (os.length : ℚ) < 15 := by exact_mod_cast hN
    linarith
  · intro i hi
    show (0 : ℚ) + (i : ℚ) / (f : ℚ) < 10
    have hiq : (i : ℚ) < 10 * (f : ℚ) := by exact_mod_cast lt_trans hi hwin
    rw [zero_add, div_lt_iff₀ hfq]
    linarith

/-- Witness for C5: 14 consecutive positives at 4 fps fire nothing. -/
theorem consecutive_below_threshold_no_fire_witness :
    noFire (windowTrace 4 initialWindow (List.replicate 14 posO)) = true :=
  consecutive_below_threshold_no_fire 4 (by decide) (List.replicate 14 posO)
    (by decide) (by decide) (by decide)

/-! ## Claim C4 -/

/-- C4: when 14 positives have accumulated over `os` inside a single
un-reset window (no elapsed-reset: fewer than `10 * max_fps` ticks) and the
15th positive outcome `o` arrives, the tick processing `o` is the only one
that fires — exactly one alert dispatch — and the confidence (hitCount) is 0
immediately after that tick. -/
theorem fifteenth_hit_fires_once (f : ℕ) (hf : 0 < f)
    (os : List ClassificationOutcome) (o : ClassificationOutcome)
    (h14 : os.countP (fun x => x.is_match) = 14)
    (ho : o.is_match = true)
    (hwin : os.length < 10 * f) :
    (windowTrace f initialWindow (os ++ [o])).map (fun r => r.fired)
      = List.replicate os.length false ++ [true] ∧
    (runWindow f initialWindow (os ++ [o])).confidence = 0 := by
  have hfq : (0 : ℚ) < (f : ℚ) := by exact_mod_cast hf
  obtain ⟨hA, hB⟩ := runWindow_accumulate f os initialWindow
    (by show (0 : ℚ) + _ < 15; rw [h14]; norm_num)
    (by
      intro i hi
      show (0 : ℚ) + (i : ℚ) / (f : ℚ) < 10
      have hiq : (i : ℚ) < 10 * (f : ℚ) := by exact_mod_cast lt_trans hi hwin
      rw [zero_add, div_lt_iff₀ hfq]
      linarith)
  have hs14c : (runWindow f initialWindow os).confidence = 14 := by
    rw [hB]
    show (0 : ℚ) + _ = 14
    rw [h14]
    norm_num
  have hhits : tickHits (runWindow f initialWindow os) o = 15 := by
    simp [tickHits, ho, hs14c]
    norm_num
  have htf : (tick f (runWindow f initialWindow os) o).fired = true := by
    unfold tick
    rw [if_pos (hhits ▸ le_refl (15 : ℚ))]
  have htc : (tick f (runWindow f initialWindow os) o).state.confidence = 0 := by
    unfold tick elapsedStep
    rw [if_pos (hhits ▸ le_refl (15 : ℚ))]
    simp
  constructor
  · rw [windowTrace_append, List.map_append]
    congr 1
    · refine List.eq_replicate_iff.mpr ⟨?_, ?_⟩
      · rw [List.length_map, windowTrace_length]
      · intro b hb
        rw [List.mem_map] at hb
        obtain ⟨r, hr, rfl⟩ := hb
        exact noFire_mem hA r hr
    · simp [windowTrace, htf]
  · rw [runWindow_append]
    simpa [runWindow] using htc

/-- Witness for C4: 14 positives then the 15th at 4 fps (3.75 s elapsed). -/
theorem fifteenth_hit_fires_once_witness :
    (windowTrace 4 initialWindow (List.replicate 14 posO ++ [posO])).map
        (fun r => r.fired)
      = List.replicate 14 false ++ [true] ∧
    (runWindow 4 initialWindow (List.replicate 14 posO ++ [posO])).confidence
      = 0 := by
  have h := fifteenth_hit_fires_once 4 (by decide) (List.replicate 14 posO) posO
    (by decide) (by decide) (by decide)
  simpa using h

/-! ## Claim C9 -/

lemma tick_match_congr (f : ℕ) (s : WindowState) (o1 o2 : ClassificationOutcome)
    (h : o1.is_match = o2.is_match) : tick f s o1 = tick f s o2 := by
  unfold tick tickHits
  rw [h]

/-- C9: the similarity score never participates in the trigger decision:
two outcome sequences that agree on every match flag produce identical
per-tick traces — the same fire/dispatch decision and the same window state
(`confidence`, `confidence_elapsed`) after every tick. -/
theorem similarity_noninterference (f : ℕ) (s : WindowState)
    (os1 os2 : List ClassificationOutcome)
    (h : os1.map (fun o => o.is_match) = os2.map (fun o => o.is_match)) :
    windowTrace f s os1 = windowTrace f s os2 := by
  induction os1 generalizing s os2 with
  | nil =>
    cases os2 with
    | nil => rfl
    | cons o2 t2 => simp at h
  | cons o1 t1 ih =>
    cases os2 with
    | nil => simp at h
    | cons o2 t2 =>
      simp only [List.map_cons, List.cons.injEq] at h
      obtain ⟨h1, h2⟩ := h
      have ht := tick_match_congr f s o1 o2 h1
      simp only [windowTrace, ht]
      rw [ih _ t2 h2]

/-- Witness for C9: same match flags, different similarity scores. -/
theorem similarity_noninterference_witness :
    windowTrace 4 initialWindow [⟨true, 1 / 10⟩, ⟨false, 2 / 10⟩]
      = windowTrace 4 initialWindow [⟨true, 9 / 10⟩, ⟨false, 0⟩] :=
  similarity_noninterference 4 initialWindow _ _ (by decide)

/-! ## Claim C3 -/

/-- C3 (amended): when the fire branch runs and the PagerDuty dispatch
receives a 4xx/5xx HTTP status, `create_pagerduty_incident` raises
`HTTPError` (the delivery failure); `consume` has no handler, so the loop
terminates immediately with that exception — the remaining polls are never
processed — and `main` catches it, prints the failure message, and returns
exit code 1. The loop does NOT log-and-continue. -/
theorem dispatch_failure_stops_loop (f : ℕ) (env : ℕ → Except PyError HttpResponse)
    (s : WindowState) (n : ℕ) (o : ClassificationOutcome)
    (rest : List (Option ClassificationOutcome)) (ps : List Poll)
    (r : HttpResponse)
    (hfire : (tick f s o).fired = true)
    (henv : env n = Except.ok r)
    (h4 : 400 ≤ r.status_code) (h6 : r.status_code < 600) :
    create_pagerduty_incident (env n)
      = Except.error (PyError.httpError r.status_code) ∧
    consumeExc f env s n ((some o :: rest) :: ps)
      = Except.error (PyError.httpError r.status_code) ∧
    mainResult (Except.error (PyError.httpError r.status_code))
      = (1, "Error: " ++ pyErrorMsg (PyError.httpError r.status_code)) := by
  have hinc : create_pagerduty_incident (env n)
      = Except.error (PyError.httpError r.status_code) := by
    rw [henv]
    simp [create_pagerduty_incident, raise_for_status, h4, h6]
  refine ⟨hinc, ?_, rfl⟩
  simp only [consumeExc, hfire, if_true]
  rw [hinc]

/-- Witness for C3 at a concrete input: window at 14 hits, a positive
outcome, dispatch answered with HTTP 500. -/
theorem dispatch_failure_stops_loop_witness :
    create_pagerduty_incident
        ((fun _ => Except.ok ⟨500, "Internal Server Error"⟩ :
          ℕ → Except PyError HttpResponse) 0)
      = Except.error (PyError.httpError 500) ∧
    consumeExc 4 (fun _ => Except.ok ⟨500, "Internal Server Error"⟩)
        ⟨14, 0⟩ 0 [[some posO]]
      = Except.error (PyError.httpError 500) ∧
    mainResult (Except.error (PyError.httpError 500))
      = (1, "Error: " ++ pyErrorMsg (PyError.httpError 500)) :=
  dispatch_failure_stops_loop 4
    (fun _ => Except.ok ⟨500, "Internal Server Error"⟩) ⟨14, 0⟩ 0 posO [] []
    ⟨500, "Internal Server Error"⟩
    (by norm_num [tick, tickHits, elapsedStep, posO]) rfl
    (by norm_num) (by norm_num)

/-- Counterexample to C3 as stated: from the initial window, fifteen
positive polls followed by one further poll, with every dispatch answered
HTTP 500. The claim says the loop logs the delivery failure and continues
processing subsequent ticks; instead the loop terminates with the
`HTTPError` — the sixteenth poll is never processed and no `Except.ok`
result is produced. -/
theorem dispatch_failure_loop_not_continued :
    consumeExc 4 (fun _ => Except.ok ⟨500, "Internal Server Error"⟩)
        initialWindow 0 (List.replicate 16 [some posO])
      = Except.error (PyError.httpError 500) := by
  norm_num [consumeExc, tick, tickHits, elapsedStep, initialWindow, posO,
    create_pagerduty_incident, raise_for_status, List.replicate]
